import Mathlib

/-! The per-link overlay `LinkMarker` of or_rviz.

A shallow embedding of `src/LinkMarker.cpp`.  Scene entities owned by OpenRAVE
(links, geometries, triangle meshes) are plain records; a `GeometryPtr` is the
address of a geometry and the scene maps addresses to geometry records, so that
two occurrences of one pointer always denote one object.  The overlay's own
fields keep their C++ names.  Calls on the interactive-marker server are
recorded in a log.
-/

namespace or_interactivemarker

/-! ## Scene entities (OpenRAVE) -/

/-- Scalars (`OpenRAVE::dReal`, ROS `float64`), taken as exact rationals: the
finite values, with exact arithmetic; rounding and the IEEE special values are
not part of the model. -/
abbrev dReal := ℚ

/-- The four-component `OpenRAVE::Vector`; a colour is `(x, y, z, w) = (r, g, b, a)`. -/
structure RaveVector where
  x : dReal
  y : dReal
  z : dReal
  w : dReal
deriving DecidableEq, Repr

/-- Component access `v[i]` of `OpenRAVE::Vector`. -/
def RaveVector.get (v : RaveVector) (i : Nat) : dReal :=
  match i with
  | 0 => v.x
  | 1 => v.y
  | 2 => v.z
  | _ => v.w

/-- An `OpenRAVE::Transform`: a rotation quaternion and a translation. -/
structure Transform where
  rot : RaveVector
  trans : RaveVector
deriving DecidableEq, Repr

/-- The values of `OpenRAVE::GeometryType`; `GT_Other` stands for every
enumerator the switch in `CreateGeometry` does not name. -/
inductive GeometryType where
  | GT_None
  | GT_Box
  | GT_Sphere
  | GT_Cylinder
  | GT_TriMesh
  | GT_Other (code : Nat)
deriving DecidableEq, Repr

/-- What `LinkMarker` reads from an `OpenRAVE::KinBody::Link::Geometry`. -/
structure Geometry where
  IsVisible : Bool
  GetType : GeometryType
  GetTransform : Transform
  GetDiffuseColor : RaveVector
  GetTransparency : dReal
  GetRenderFilename : String
  GetRenderScale : RaveVector
  GetBoxExtents : RaveVector
  GetSphereRadius : dReal
  GetCylinderRadius : dReal
  GetCylinderHeight : dReal
deriving DecidableEq, Repr

/-- An `OpenRAVE::TriMesh`: vertices and the indices that group them in threes. -/
structure TriMesh where
  vertices : List RaveVector
  indices : List Int
deriving DecidableEq, Repr

/-- The address held by a `GeometryPtr` (`geometry.get()`). -/
abbrev GeometryAddr := Nat

/-- The parent body of a link, with the id of the environment it lives in
(`RaveGetEnvironmentId(body->GetEnv())`). -/
structure KinBody where
  GetName : String
  environment_id : Int
deriving DecidableEq, Repr

/-- An `OpenRAVE::KinBody::Link`: `GetGeometries` is a vector of geometry pointers. -/
structure Link where
  GetName : String
  GetParent : KinBody
  GetTransform : Transform
  GetGeometries : List GeometryAddr
deriving DecidableEq, Repr

/-- The part of the OpenRAVE environment the overlay reads: the geometry
object behind each pointer and the mesh loader `ReadTrimeshURI`, which yields
no mesh when loading fails. -/
structure Scene where
  geometry : GeometryAddr → Geometry
  ReadTrimeshURI : String → Option TriMesh

/-! ## ROS messages -/

/-- The `geometry_msgs::Vector3` message. -/
structure Vector3 where
  x : dReal
  y : dReal
  z : dReal
deriving DecidableEq, Repr

/-- The `geometry_msgs::Point` message. -/
structure Point where
  x : dReal
  y : dReal
  z : dReal
deriving DecidableEq, Repr

/-- The `std_msgs::ColorRGBA` message. -/
structure ColorRGBA where
  r : dReal
  g : dReal
  b : dReal
  a : dReal
deriving DecidableEq, Repr

/-- The `geometry_msgs::Pose` message: position and orientation quaternion. -/
structure Pose where
  position : Point
  orientation : RaveVector
deriving DecidableEq, Repr

/-- The marker shapes of `visualization_msgs::Marker` used here; `ARROW` is
the value of a freshly constructed message. -/
inductive MarkerType where
  | ARROW
  | CUBE
  | SPHERE
  | CYLINDER
  | MESH_RESOURCE
  | TRIANGLE_LIST
deriving DecidableEq, Repr

/-- The fields of `visualization_msgs::Marker` that `LinkMarker` writes. -/
structure Marker where
  pose : Pose
  type : MarkerType
  scale : Vector3
  color : ColorRGBA
  points : List Point
  mesh_resource : String
  mesh_use_embedded_materials : Bool
deriving DecidableEq, Repr

/-- Modelled from the spec: `or_conversions.h` is not among the sources; the
spec treats its helpers as unit-preserving conversions, so `toROSVector`
copies the three spatial components. -/
def toROSVector (v : RaveVector) : Vector3 := ⟨v.x, v.y, v.z⟩

/-- Modelled from the spec: `toROSPoint` of `or_conversions.h` copies the
three spatial components of a vertex. -/
def toROSPoint (v : RaveVector) : Point := ⟨v.x, v.y, v.z⟩

/-- Modelled from the spec: `toROSColor` of `or_conversions.h` copies the four
colour components. -/
def toROSColor (v : RaveVector) : ColorRGBA := ⟨v.x, v.y, v.z, v.w⟩

/-- Modelled from the spec: `toROSPose` of `or_conversions.h` carries the
translation and the rotation quaternion over. -/
def toROSPose (t : Transform) : Pose := ⟨toROSPoint t.trans, t.rot⟩

/-- A freshly constructed marker (`boost::make_shared<Marker>()`) with its pose set. -/
def Marker.fresh (pose : Pose) : Marker :=
  { pose := pose, type := MarkerType.ARROW, scale := ⟨0, 0, 0⟩, color := ⟨0, 0, 0, 0⟩,
    points := [], mesh_resource := "", mesh_use_embedded_materials := false }

/-! ## The overlay state -/

/-- A call received by the `InteractiveMarkerServer`. -/
inductive ServerCall where
  | insert (name : String) (markers : List Marker)
  | setPose (name : String) (pose : Pose)
  | erase (name : String)
deriving DecidableEq, Repr

/-- The map `geometry_markers_` from geometry address to marker pointer.  A
marker pointer is the position of the marker in `visual_control_->markers`;
`none` is the `NULL` pointer recorded for a visible geometry without marker. -/
abbrev GeometryMarkers := List (GeometryAddr × Option Nat)

/-- The lookup `geometry_markers_.find(key)`; `none` is `end()`. -/
def GeometryMarkers.find (m : GeometryMarkers) (key : GeometryAddr) : Option (Option Nat) :=
  match m with
  | [] => none
  | (k, v) :: rest => if k = key then some v else GeometryMarkers.find rest key

/-- The assignment `geometry_markers_[key] = value`: overwrite the entry of
`key`, or add one. -/
def GeometryMarkers.assign (m : GeometryMarkers) (key : GeometryAddr) (value : Option Nat) :
    GeometryMarkers :=
  match m with
  | [] => [(key, value)]
  | (k, v) :: rest =>
    if k = key then (k, value) :: rest else (k, v) :: GeometryMarkers.assign rest key value

/-- The fields of a `LinkMarker`.  `name` is `interactive_marker_->name`,
`markers` is `visual_control_->markers`, and `server_` is the log of the calls
made on the server. -/
structure LinkMarker where
  server_ : List ServerCall
  name : String
  pose : Pose
  markers : List Marker
  geometry_markers_ : GeometryMarkers
  override_color_ : Option RaveVector
  is_ghost_ : Bool
  force_update_ : Bool
deriving DecidableEq, Repr

/-! ## `boost::format` -/

/-- An argument fed to a format object with `%`. -/
inductive FormatArg where
  | int (value : Int)
  | str (value : String)
deriving DecidableEq, Repr

/-- The decimal text of an `int`, as `%d` prints it. -/
def printDecimal : Int → List Char
  | Int.ofNat n => Nat.toDigits 10 n
  | Int.negSucc n => '-' :: Nat.toDigits 10 (n + 1)

/-- The text an argument is rendered as. -/
def FormatArg.text : FormatArg → List Char
  | FormatArg.int value => printDecimal value
  | FormatArg.str value => value.data

/-- Substitution of the arguments into a format string: each directive (`%`
and its conversion character) is replaced by the next argument.  A directive
left without argument is copied; `boost::format` would throw there, which the
four-argument call in `id` never meets. -/
def formatChars : List Char → List FormatArg → List Char
  | [], _ => []
  | '%' :: _ :: rest, arg :: args => arg.text ++ formatChars rest args
  | c :: rest, args => c :: formatChars rest args

/-- The call `str(format(fmt) % a₁ % … % aₙ)`. -/
def format (fmt : String) (args : List FormatArg) : String :=
  String.mk (formatChars fmt.data args)

/-! ## String predicates of `boost::algorithm` -/

/-- The test `boost::algorithm::starts_with(input, test)`. -/
def starts_with (input test : String) : Bool :=
  test.data.isPrefixOf input.data

/-- The test `boost::algorithm::iends_with(input, test)`: a suffix test that
ignores letter case. -/
def iends_with (input test : String) : Bool :=
  (test.data.map Char.toUpper).isSuffixOf (input.data.map Char.toUpper)

/-! ## `LinkMarker` -/

namespace LinkMarker

/-- The method `LinkMarker::id`. -/
def id (this : LinkMarker) (link : Link) : String :=
  let body := link.GetParent
  let environment_id := body.environment_id
  let suffix := if this.is_ghost_ then ".Ghost" else ""
  format "Environment[%d].KinBody[%s].Link[%s]%s"
    [FormatArg.int environment_id, FormatArg.str body.GetName, FormatArg.str link.GetName,
      FormatArg.str suffix]

/-- The constructor `LinkMarker::LinkMarker`, for a server and a link that are
present (the two assertions). -/
def create (server : List ServerCall) (link : Link) (is_ghost : Bool) : LinkMarker :=
  let this : LinkMarker :=
    { server_ := server, name := "", pose := toROSPose link.GetTransform, markers := [],
      geometry_markers_ := [], override_color_ := none, is_ghost_ := is_ghost,
      force_update_ := false }
  { this with name := id this link }

/-- The method `LinkMarker::set_color`. -/
def set_color (this : LinkMarker) (color : RaveVector) : LinkMarker :=
  { this with
    force_update_ :=
      match this.override_color_ with
      | none => true
      | some override_color =>
        this.force_update_
          || decide (color.get 0 ≠ override_color.get 0)
          || decide (color.get 1 ≠ override_color.get 1)
          || decide (color.get 2 ≠ override_color.get 2)
          || decide (color.get 3 ≠ override_color.get 3)
    override_color_ := some color }

/-- The method `LinkMarker::HasTexture`. -/
def HasTexture (uri : String) : Bool :=
  iends_with uri ".dae"

/-- The method `LinkMarker::HasRVizSupport`. -/
def HasRVizSupport (uri : String) : Bool :=
  iends_with uri ".dae" || iends_with uri ".stl" || iends_with uri ".mesh"

/-- The element access `trimesh.vertices[i]`.  A read past the end of the
vector, which C++ leaves undefined, is given the zero vector. -/
def vertexAt (trimesh : TriMesh) (i : Nat) : RaveVector :=
  trimesh.vertices.getD i ⟨0, 0, 0, 0⟩

/-- The method `LinkMarker::TriMeshToMarker`: the loop runs `i` over
`0 … indices.size() - 1` in steps of one and pushes three points per step.
The assertion on the index count is a precondition and is not checked here. -/
def TriMeshToMarker (trimesh : TriMesh) (marker : Marker) : Marker :=
  let points := (List.range trimesh.indices.length).foldl
    (fun points i =>
      let p1 := vertexAt trimesh (i + 0)
      let p2 := vertexAt trimesh (i + 1)
      let p3 := vertexAt trimesh (i + 2)
      points ++ [toROSPoint p1, toROSPoint p2, toROSPoint p3]) []
  { marker with type := MarkerType.TRIANGLE_LIST, points := points }

/-- The overload `LinkMarker::CreateGeometry(GeometryPtr)`: the marker of one
geometry, or none (the empty `MarkerPtr`). -/
def CreateGeometry_geometry (this : LinkMarker) (env : Scene) (geometry : Geometry) :
    Option Marker :=
  let marker := Marker.fresh (toROSPose geometry.GetTransform)
  let marker : Marker :=
    match this.override_color_ with
    | some override_color => { marker with color := toROSColor override_color }
    | none =>
      { marker with
        color := { toROSColor geometry.GetDiffuseColor with a := 1 - geometry.GetTransparency } }
  let render_mesh_path :=
    if starts_with geometry.GetRenderFilename "__norenderif__" then ""
    else geometry.GetRenderFilename
  if render_mesh_path ≠ "" ∧ HasRVizSupport render_mesh_path = true then
    let marker : Marker :=
      { marker with
        type := MarkerType.MESH_RESOURCE
        scale := toROSVector geometry.GetRenderScale
        mesh_resource := "file://" ++ render_mesh_path }
    let has_texture := this.override_color_.isNone && HasTexture render_mesh_path
    let marker : Marker := { marker with mesh_use_embedded_materials := has_texture }
    if has_texture then some { marker with color := ⟨0, 0, 0, 0⟩ } else some marker
  else if render_mesh_path ≠ "" then
    match env.ReadTrimeshURI render_mesh_path with
    | none => none
    | some trimesh => some (TriMeshToMarker trimesh marker)
  else
    match geometry.GetType with
    | GeometryType.GT_None => none
    | GeometryType.GT_Box =>
      let scale := toROSVector geometry.GetBoxExtents
      some { marker with
        type := MarkerType.CUBE
        scale := ⟨scale.x * 2, scale.y * 2, scale.z * 2⟩ }
    | GeometryType.GT_Sphere =>
      let sphere_radius := geometry.GetSphereRadius
      some { marker with
        type := MarkerType.SPHERE
        scale := ⟨(1 / 2) * sphere_radius, (1 / 2) * sphere_radius, (1 / 2) * sphere_radius⟩ }
    | GeometryType.GT_Cylinder =>
      let cylinder_radius := geometry.GetCylinderRadius
      let cylinder_height := geometry.GetCylinderHeight
      some { marker with
        type := MarkerType.CYLINDER
        scale := ⟨(1 / 2) * cylinder_radius, (1 / 2) * cylinder_radius, cylinder_height⟩ }
    | GeometryType.GT_TriMesh => none
    | GeometryType.GT_Other _ => none

/-- One pass of the loop of `LinkMarker::CreateGeometry()` over a geometry pointer. -/
def CreateGeometry.step (env : Scene) (this : LinkMarker) (geometry : GeometryAddr) :
    LinkMarker :=
  if (env.geometry geometry).IsVisible = false then this
  else
    match CreateGeometry_geometry this env (env.geometry geometry) with
    | some new_marker =>
      { this with
        markers := this.markers ++ [new_marker]
        geometry_markers_ :=
          this.geometry_markers_.assign geometry (some this.markers.length) }
    | none =>
      { this with geometry_markers_ := this.geometry_markers_.assign geometry none }

/-- The method `LinkMarker::CreateGeometry()`: clear the submarkers and the
map, then visit the geometries of the link in order. -/
def CreateGeometry (this : LinkMarker) (env : Scene) (link : Link) : LinkMarker :=
  let this := { this with markers := [], geometry_markers_ := [] }
  link.GetGeometries.foldl (CreateGeometry.step env) this

/-- The change-detection loop of `LinkMarker::EnvironmentSync`, with its
early exit: the value of `is_changed` when the loop ends. -/
def EnvironmentSync.scan (this : LinkMarker) (env : Scene) :
    List GeometryAddr → Bool → Bool
  | [], is_changed => is_changed
  | geometry :: rest, is_changed =>
    let is_missing := (this.geometry_markers_.find geometry).isNone
    let is_visible := (env.geometry geometry).IsVisible
    let is_changed := is_changed || (is_visible == is_missing)
    if is_changed then is_changed else EnvironmentSync.scan this env rest is_changed

/-- The method `LinkMarker::EnvironmentSync`: the returned flag and the
overlay afterwards. -/
def EnvironmentSync (this : LinkMarker) (env : Scene) (link : Link) : Bool × LinkMarker :=
  let is_changed := EnvironmentSync.scan this env link.GetGeometries this.force_update_
  let this :=
    if is_changed then
      let this := CreateGeometry this env link
      { this with server_ := this.server_ ++ [ServerCall.insert this.name this.markers] }
    else this
  (is_changed, { this with force_update_ := false })

end LinkMarker

/-! ## Notions used to state the properties -/

/-- The visibility of a geometry disagrees with the existence of its entry:
visible without entry, or invisible with one. -/
def LinkMarker.disagrees (this : LinkMarker) (env : Scene) (geometry : GeometryAddr) : Prop :=
  ((env.geometry geometry).IsVisible = true ∧ this.geometry_markers_.find geometry = none) ∨
  ((env.geometry geometry).IsVisible = false ∧ this.geometry_markers_.find geometry ≠ none)

/-- The tuple an identity string is computed from: environment id, body
name, link name and ghost flag. -/
def LinkMarker.identity (this : LinkMarker) (link : Link) : Int × String × String × Bool :=
  (link.GetParent.environment_id, link.GetParent.GetName, link.GetName, this.is_ghost_)

/-- The number a string of decimal digits stands for. -/
def decimalValue (digits : List Char) : Nat :=
  digits.foldl (fun acc c => 10 * acc + (c.toNat - 48)) 0

/-! ## Sample data -/

/-- A geometry without render mesh, of the given visibility and type. -/
def sampleGeometry (visible : Bool) (type : GeometryType) : Geometry :=
  { IsVisible := visible, GetType := type,
    GetTransform := ⟨⟨0, 0, 0, 1⟩, ⟨0, 0, 0, 0⟩⟩,
    GetDiffuseColor := ⟨1, 1, 1, 0⟩, GetTransparency := 0,
    GetRenderFilename := "", GetRenderScale := ⟨1, 1, 1, 0⟩,
    GetBoxExtents := ⟨1, 2, 3, 0⟩,
    GetSphereRadius := 1, GetCylinderRadius := 1, GetCylinderHeight := 1 }

/-- A scene with a visible box at address 0, a visible geometry of type none
at address 2 and invisible boxes elsewhere; no mesh can be loaded. -/
def sampleScene : Scene :=
  { geometry := fun addr =>
      if addr = 0 then sampleGeometry true GeometryType.GT_Box
      else if addr = 2 then sampleGeometry true GeometryType.GT_None
      else sampleGeometry false GeometryType.GT_Box
    ReadTrimeshURI := fun _ => none }

/-- A link `hand` of the body `robot` in environment 1, with the geometries at
addresses 0, 1 and 2. -/
def sampleLink : Link :=
  { GetName := "hand", GetParent := ⟨"robot", 1⟩,
    GetTransform := ⟨⟨0, 0, 0, 1⟩, ⟨0, 0, 0, 0⟩⟩, GetGeometries := [0, 1, 2] }

/-- The live overlay of `sampleLink`, freshly constructed. -/
def sampleMarker : LinkMarker := LinkMarker.create [] sampleLink false

/-- A mesh of one triangle over the first three of five vertices. -/
def sampleTriMesh : TriMesh :=
  { vertices := [⟨0, 0, 0, 0⟩, ⟨1, 0, 0, 0⟩, ⟨0, 1, 0, 0⟩, ⟨0, 0, 1, 0⟩, ⟨1, 1, 1, 0⟩],
    indices := [0, 1, 2] }

/-- The triangle list the specification describes: one point per index, the
`k`-th point being the vertex the `k`-th index refers to. -/
def indexedPoints (trimesh : TriMesh) : List Point :=
  trimesh.indices.map fun index => toROSPoint (LinkMarker.vertexAt trimesh index.toNat)

/-! ## The link reference, checked reads and call sequences -/

/-- The element access `trimesh.vertices[i]` with the bound checked: nothing
for a position past the end of the vector. -/
def LinkMarker.vertexAt_checked (trimesh : TriMesh) (i : Nat) : Option RaveVector :=
  trimesh.vertices[i]?

/-- The method `LinkMarker::TriMeshToMarker` with every vertex read checked:
the same loop, which yields nothing as soon as one read leaves the vector. -/
def LinkMarker.TriMeshToMarker_checked (trimesh : TriMesh) (marker : Marker) : Option Marker :=
  let points := (List.range trimesh.indices.length).foldl
    (fun (points : Option (List Point)) i =>
      match points, LinkMarker.vertexAt_checked trimesh (i + 0),
        LinkMarker.vertexAt_checked trimesh (i + 1),
        LinkMarker.vertexAt_checked trimesh (i + 2) with
      | some points, some p1, some p2, some p3 =>
        some (points ++ [toROSPoint p1, toROSPoint p2, toROSPoint p3])
      | _, _, _, _ => none) (some [])
  points.map fun points => { marker with type := MarkerType.TRIANGLE_LIST, points := points }

/-- The overload `LinkMarker::CreateGeometry(GeometryPtr)` with the vertex
reads of the mesh conversion checked.  The outer option is the outcome of the
call, nothing when a read leaves the vertex array; the inner one is the
`MarkerPtr` it returns. -/
def LinkMarker.CreateGeometry_geometry_checked (this : LinkMarker) (env : Scene)
    (geometry : Geometry) : Option (Option Marker) :=
  let marker := Marker.fresh (toROSPose geometry.GetTransform)
  let marker : Marker :=
    match this.override_color_ with
    | some override_color => { marker with color := toROSColor override_color }
    | none =>
      { marker with
        color := { toROSColor geometry.GetDiffuseColor with a := 1 - geometry.GetTransparency } }
  let render_mesh_path :=
    if starts_with geometry.GetRenderFilename "__norenderif__" then ""
    else geometry.GetRenderFilename
  if render_mesh_path ≠ "" ∧ LinkMarker.HasRVizSupport render_mesh_path = true then
    let marker : Marker :=
      { marker with
        type := MarkerType.MESH_RESOURCE
        scale := toROSVector geometry.GetRenderScale
        mesh_resource := "file://" ++ render_mesh_path }
    let has_texture := this.override_color_.isNone && LinkMarker.HasTexture render_mesh_path
    let marker : Marker := { marker with mesh_use_embedded_materials := has_texture }
    if has_texture then some (some { marker with color := ⟨0, 0, 0, 0⟩ }) else some (some marker)
  else if render_mesh_path ≠ "" then
    match env.ReadTrimeshURI render_mesh_path with
    | none => some none
    | some trimesh =>
      match LinkMarker.TriMeshToMarker_checked trimesh marker with
      | none => none
      | some marker => some (some marker)
  else
    match geometry.GetType with
    | GeometryType.GT_None => some none
    | GeometryType.GT_Box =>
      let scale := toROSVector geometry.GetBoxExtents
      some (some { marker with
        type := MarkerType.CUBE
        scale := ⟨scale.x * 2, scale.y * 2, scale.z * 2⟩ })
    | GeometryType.GT_Sphere =>
      let sphere_radius := geometry.GetSphereRadius
      some (some { marker with
        type := MarkerType.SPHERE
        scale := ⟨(1 / 2) * sphere_radius, (1 / 2) * sphere_radius, (1 / 2) * sphere_radius⟩ })
    | GeometryType.GT_Cylinder =>
      let cylinder_radius := geometry.GetCylinderRadius
      let cylinder_height := geometry.GetCylinderHeight
      some (some { marker with
        type := MarkerType.CYLINDER
        scale := ⟨(1 / 2) * cylinder_radius, (1 / 2) * cylinder_radius, cylinder_height⟩ })
    | GeometryType.GT_TriMesh => some none
    | GeometryType.GT_Other _ => some none

/-- One pass of the loop of `LinkMarker::CreateGeometry()` with checked reads:
nothing when the marker of the geometry cannot be made without a read past the
end. -/
def LinkMarker.CreateGeometry.step_checked (env : Scene) (this : LinkMarker)
    (geometry : GeometryAddr) : Option LinkMarker :=
  if (env.geometry geometry).IsVisible = false then some this
  else
    match LinkMarker.CreateGeometry_geometry_checked this env (env.geometry geometry) with
    | none => none
    | some (some new_marker) =>
      some { this with
        markers := this.markers ++ [new_marker]
        geometry_markers_ :=
          this.geometry_markers_.assign geometry (some this.markers.length) }
    | some none =>
      some { this with geometry_markers_ := this.geometry_markers_.assign geometry none }

/-- The loop of `LinkMarker::CreateGeometry()` with checked reads: it stops
at the first pass that has no outcome. -/
def LinkMarker.CreateGeometry.loop_checked (env : Scene) :
    LinkMarker → List GeometryAddr → Option LinkMarker
  | this, [] => some this
  | this, geometry :: rest =>
    match LinkMarker.CreateGeometry.step_checked env this geometry with
    | none => none
    | some this => LinkMarker.CreateGeometry.loop_checked env this rest

/-- The method `LinkMarker::CreateGeometry()` with checked reads. -/
def LinkMarker.CreateGeometry_checked (this : LinkMarker) (env : Scene) (link : Link) :
    Option LinkMarker :=
  LinkMarker.CreateGeometry.loop_checked env
    { this with markers := [], geometry_markers_ := [] } link.GetGeometries

/-- The method `LinkMarker::EnvironmentSync` on a live link with checked
reads: the returned flag and the overlay afterwards, or nothing when the
rebuild reads past the end of a vertex array. -/
def LinkMarker.EnvironmentSync_checked (this : LinkMarker) (env : Scene) (link : Link) :
    Option (Bool × LinkMarker) :=
  let is_changed :=
    LinkMarker.EnvironmentSync.scan this env link.GetGeometries this.force_update_
  if is_changed then
    match LinkMarker.CreateGeometry_checked this env link with
    | none => none
    | some this =>
      let this :=
        { this with server_ := this.server_ ++ [ServerCall.insert this.name this.markers] }
      some (is_changed, { this with force_update_ := false })
  else some (is_changed, { this with force_update_ := false })

/-- The weak reference `link_` of an overlay: the link while it is alive,
nothing once the simulation engine has destroyed it. -/
abbrev LinkWeakPtr := Option Link

/-- The method `LinkMarker::link`: `link_.lock()`, which gives the empty
pointer for an expired reference. -/
def LinkMarker.link (link_ : LinkWeakPtr) : Option Link := link_

/-- The method `LinkMarker::EnvironmentSync` seen from its caller, who holds
the overlay and not the link: the method locks `link_` and goes on to
`link->GetGeometries()` with no test in between.  The call has no outcome when
it faults: when it dereferences the empty pointer, or when on a live link the
rebuild reads past the end of a vertex array. -/
def LinkMarker.EnvironmentSync_locked (this : LinkMarker) (env : Scene) (link_ : LinkWeakPtr) :
    Option (Bool × LinkMarker) :=
  match LinkMarker.link link_ with
  | none => none
  | some link => LinkMarker.EnvironmentSync_checked this env link

/-- The marker a rebuild asks for at one geometry pointer: that of the
per-geometry `CreateGeometry` when the geometry is visible, none otherwise. -/
def LinkMarker.visibleMarker (this : LinkMarker) (env : Scene) (geometry : GeometryAddr) :
    Option Marker :=
  if (env.geometry geometry).IsVisible = true then
    LinkMarker.CreateGeometry_geometry this env (env.geometry geometry)
  else none

/-- A mesh of one triangle over exactly three vertices. -/
def sampleTriangle : TriMesh :=
  { vertices := [⟨0, 0, 0, 0⟩, ⟨1, 0, 0, 0⟩, ⟨0, 1, 0, 0⟩], indices := [0, 1, 2] }

/-- The sample box with a render filename. -/
def sampleMeshGeometry (filename : String) : Geometry :=
  { sampleGeometry true GeometryType.GT_Box with GetRenderFilename := filename }

/-- A scene in which every geometry is a visible box with the render file
`hand.obj`, a format RViz does not support, and the mesh loader returns
`sampleTriangle`. -/
def sampleMeshScene : Scene :=
  { geometry := fun _ => sampleMeshGeometry "hand.obj"
    ReadTrimeshURI := fun _ => some sampleTriangle }

/-! ## Properties of the map `geometry_markers_` -/

theorem GeometryMarkers.find_assign (m : GeometryMarkers) (key : GeometryAddr)
    (value : Option Nat) (k : GeometryAddr) :
    GeometryMarkers.find (GeometryMarkers.assign m key value) k =
      if key = k then some value else GeometryMarkers.find m k := by
  induction m with
  | nil => simp [GeometryMarkers.assign, GeometryMarkers.find]
  | cons e rest ih =>
    obtain ⟨k0, v0⟩ := e
    by_cases h0 : k0 = key
    · subst h0
      by_cases h1 : k0 = k <;> simp [GeometryMarkers.assign, GeometryMarkers.find, h1]
    · by_cases h1 : k0 = k
      · subst h1
        simp [GeometryMarkers.assign, GeometryMarkers.find, h0, Ne.symm h0]
      · simp [GeometryMarkers.assign, GeometryMarkers.find, h0, h1, ih]

/-! ## The change detector -/

namespace LinkMarker

theorem disagrees_iff (this : LinkMarker) (env : Scene) (geometry : GeometryAddr) :
    disagrees this env geometry ↔
      ((env.geometry geometry).IsVisible == (this.geometry_markers_.find geometry).isNone)
        = true := by
  unfold disagrees
  cases (env.geometry geometry).IsVisible <;>
    cases this.geometry_markers_.find geometry <;> simp

theorem EnvironmentSync.scan_eq_true (this : LinkMarker) (env : Scene)
    (geometries : List GeometryAddr) (is_changed : Bool) :
    EnvironmentSync.scan this env geometries is_changed = true ↔
      (is_changed = true ∨ ∃ geometry ∈ geometries, disagrees this env geometry) := by
  induction geometries generalizing is_changed with
  | nil => simp [EnvironmentSync.scan]
  | cons g rest ih =>
    simp only [EnvironmentSync.scan, List.mem_cons, exists_eq_or_imp, disagrees_iff]
    split
    · rename_i h
      simp only [Bool.or_eq_true] at h
      rcases h with h | h <;> simp [h]
    · rename_i h
      simp only [Bool.or_eq_true, not_or, Bool.not_eq_true] at h
      rw [ih]
      simp [h.1, h.2, disagrees_iff]

end LinkMarker

namespace LinkMarker

theorem disagrees_congr {a b : LinkMarker} (h : a.geometry_markers_ = b.geometry_markers_)
    (env : Scene) (geometry : GeometryAddr) :
    disagrees a env geometry ↔ disagrees b env geometry := by
  unfold disagrees
  rw [h]

theorem CreateGeometry_geometry_congr {a b : LinkMarker}
    (h : a.override_color_ = b.override_color_) (env : Scene) (geometry : Geometry) :
    CreateGeometry_geometry a env geometry = CreateGeometry_geometry b env geometry := by
  unfold CreateGeometry_geometry
  rw [h]

theorem CreateGeometry.step_override (env : Scene) (this : LinkMarker)
    (geometry : GeometryAddr) :
    (CreateGeometry.step env this geometry).override_color_ = this.override_color_ := by
  unfold CreateGeometry.step
  split
  · rfl
  · split <;> rfl

theorem CreateGeometry.fold_override (env : Scene) (geometries : List GeometryAddr)
    (this : LinkMarker) :
    (geometries.foldl (CreateGeometry.step env) this).override_color_
      = this.override_color_ := by
  induction geometries generalizing this with
  | nil => rfl
  | cons g rest ih => rw [List.foldl_cons, ih, CreateGeometry.step_override]

/-- What one pass of the rebuild loop does to the entry of `key`. -/
theorem CreateGeometry.step_find (env : Scene) (this : LinkMarker)
    (geometry key : GeometryAddr) :
    ((geometry = key ∧ (env.geometry geometry).IsVisible = true) →
      ∃ entry, (CreateGeometry.step env this geometry).geometry_markers_.find key = some entry ∧
        (entry = none ↔ CreateGeometry_geometry this env (env.geometry key) = none)) ∧
    (¬ (geometry = key ∧ (env.geometry geometry).IsVisible = true) →
      (CreateGeometry.step env this geometry).geometry_markers_.find key
        = this.geometry_markers_.find key) := by
  unfold CreateGeometry.step
  constructor
  · rintro ⟨rfl, hvis⟩
    simp only [hvis, Bool.true_eq_false, if_false]
    cases hcg : CreateGeometry_geometry this env (env.geometry geometry) with
    | none => exact ⟨none, by simp [GeometryMarkers.find_assign], by simp⟩
    | some new_marker =>
      exact ⟨some this.markers.length, by simp [GeometryMarkers.find_assign], by simp⟩
  · intro hnot
    by_cases hvis : (env.geometry geometry).IsVisible = true
    · have hne : geometry ≠ key := fun h => hnot ⟨h, hvis⟩
      simp only [hvis, Bool.true_eq_false, if_false]
      cases CreateGeometry_geometry this env (env.geometry geometry) <;>
        simp [GeometryMarkers.find_assign, hne]
    · simp only [Bool.not_eq_true] at hvis
      simp [hvis]

/-- What the whole rebuild loop does to the entry of `key`. -/
theorem CreateGeometry.fold_find (env : Scene) (geometries : List GeometryAddr)
    (this : LinkMarker) (key : GeometryAddr) :
    ((key ∈ geometries ∧ (env.geometry key).IsVisible = true) →
      ∃ entry,
        (geometries.foldl (CreateGeometry.step env) this).geometry_markers_.find key
          = some entry ∧
        (entry = none ↔ CreateGeometry_geometry this env (env.geometry key) = none)) ∧
    (¬ (key ∈ geometries ∧ (env.geometry key).IsVisible = true) →
      (geometries.foldl (CreateGeometry.step env) this).geometry_markers_.find key
        = this.geometry_markers_.find key) := by
  induction geometries generalizing this with
  | nil => simp
  | cons g rest ih =>
    rw [List.foldl_cons]
    have hcg := CreateGeometry_geometry_congr (CreateGeometry.step_override env this g) env
      (env.geometry key)
    obtain ⟨ih1, ih2⟩ := ih (CreateGeometry.step env this g)
    obtain ⟨st1, st2⟩ := CreateGeometry.step_find env this g key
    by_cases hrest : key ∈ rest ∧ (env.geometry key).IsVisible = true
    · constructor
      · intro _
        obtain ⟨entry, h1, h2⟩ := ih1 hrest
        exact ⟨entry, h1, by rw [h2, hcg]⟩
      · intro hnot
        exact absurd ⟨List.mem_cons_of_mem g hrest.1, hrest.2⟩ hnot
    · rw [ih2 hrest]
      constructor
      · rintro ⟨hmem, hvis⟩
        have hg : g = key := by
          rcases List.mem_cons.mp hmem with h | h
          · exact h.symm
          · exact absurd ⟨h, hvis⟩ hrest
        exact st1 ⟨hg, by rw [hg]; exact hvis⟩
      · intro hnot
        apply st2
        rintro ⟨rfl, hvis⟩
        exact hnot ⟨List.mem_cons_self _ _, hvis⟩

/-- After a rebuild no geometry of the link disagrees with the map. -/
theorem CreateGeometry_agrees (this : LinkMarker) (env : Scene) (link : Link)
    (geometry : GeometryAddr) :
    ((env.geometry geometry).IsVisible = false →
      (CreateGeometry this env link).geometry_markers_.find geometry = none) ∧
    (geometry ∈ link.GetGeometries → (env.geometry geometry).IsVisible = true →
      (CreateGeometry this env link).geometry_markers_.find geometry ≠ none) := by
  unfold CreateGeometry
  obtain ⟨h1, h2⟩ := CreateGeometry.fold_find env link.GetGeometries
    { this with markers := [], geometry_markers_ := [] } geometry
  constructor
  · intro hvis
    rw [h2 (by simp [hvis])]
    rfl
  · intro hmem hvis
    obtain ⟨entry, he, _⟩ := h1 ⟨hmem, hvis⟩
    simp [he]

theorem EnvironmentSync_geometry_markers (this : LinkMarker) (env : Scene) (link : Link) :
    (EnvironmentSync this env link).2.geometry_markers_ =
      if (EnvironmentSync this env link).1 = true then
        (CreateGeometry this env link).geometry_markers_
      else this.geometry_markers_ := by
  unfold EnvironmentSync
  dsimp only
  split <;> rfl

/-- After a synchronisation no geometry of the link disagrees with the map. -/
theorem EnvironmentSync_agrees (this : LinkMarker) (env : Scene) (link : Link)
    (geometry : GeometryAddr) (hmem : geometry ∈ link.GetGeometries) :
    ¬ disagrees (EnvironmentSync this env link).2 env geometry := by
  unfold disagrees
  rw [EnvironmentSync_geometry_markers]
  by_cases hch : (EnvironmentSync this env link).1 = true
  · rw [if_pos hch]
    obtain ⟨h1, h2⟩ := CreateGeometry_agrees this env link geometry
    rintro (⟨hv, hf⟩ | ⟨hv, hf⟩)
    · exact h2 hmem hv hf
    · exact hf (h1 hv)
  · rw [if_neg hch]
    intro hdis
    apply hch
    exact (EnvironmentSync.scan_eq_true this env link.GetGeometries this.force_update_).mpr
      (Or.inr ⟨geometry, hmem, hdis⟩)

/-- A synchronisation of a clean overlay that agrees with the link reports no change. -/
theorem EnvironmentSync_clean (this : LinkMarker) (env : Scene) (link : Link)
    (hforce : this.force_update_ = false)
    (hagree : ∀ geometry ∈ link.GetGeometries, ¬ disagrees this env geometry) :
    (EnvironmentSync this env link).1 = false := by
  rw [← Bool.not_eq_true]
  intro h
  rcases (EnvironmentSync.scan_eq_true this env link.GetGeometries this.force_update_).mp h
    with h | ⟨geometry, hmem, hdis⟩
  · rw [hforce] at h
    exact Bool.noConfusion h
  · exact hagree geometry hmem hdis

end LinkMarker

namespace LinkMarker

theorem EnvironmentSync_override (this : LinkMarker) (env : Scene) (link : Link) :
    (EnvironmentSync this env link).2.override_color_ = this.override_color_ := by
  unfold EnvironmentSync
  dsimp only
  split
  · exact CreateGeometry.fold_override env link.GetGeometries _
  · rfl

theorem set_color_force_update (this : LinkMarker) (color : RaveVector) :
    (set_color this color).force_update_ = true ↔
      (this.force_update_ = true ∨ this.override_color_ ≠ some color) := by
  unfold set_color
  cases this.override_color_ with
  | none => simp
  | some override_color =>
    obtain ⟨cx, cy, cz, cw⟩ := color
    obtain ⟨ox, oy, oz, ow⟩ := override_color
    simp only [RaveVector.get, Bool.or_eq_true, decide_eq_true_eq, ne_eq, Option.some.injEq,
      RaveVector.mk.injEq, not_and]
    constructor
    · rintro ((((h | h) | h) | h) | h)
      · exact Or.inl h
      · exact Or.inr fun hx => absurd hx.symm h
      · exact Or.inr fun _ hy => absurd hy.symm h
      · exact Or.inr fun _ _ hz => absurd hz.symm h
      · exact Or.inr fun _ _ _ hw => absurd hw.symm h
    · rintro (h | h)
      · exact Or.inl (Or.inl (Or.inl (Or.inl h)))
      · by_cases hx : cx = ox
        · by_cases hy : cy = oy
          · by_cases hz : cz = oz
            · exact Or.inr fun hw => h hx.symm hy.symm hz.symm hw.symm
            · exact Or.inl (Or.inr hz)
          · exact Or.inl (Or.inl (Or.inr hy))
        · exact Or.inl (Or.inl (Or.inl (Or.inr hx)))

end LinkMarker

/-- C3.  `set_color` sets the forced-dirty flag only if it was set already or
the new override differs from the old one (no override, or another value in one
of the four components); so a call with the colour already in force leaves the
flag as it is, and in `set_color c; EnvironmentSync; set_color c; EnvironmentSync`
on an unchanged link the second `EnvironmentSync` returns false. -/
theorem set_color_twice_one_rebuild (this : LinkMarker) (env : Scene) (link : Link)
    (color : RaveVector) :
    ((LinkMarker.set_color this color).force_update_ = true ↔
      (this.force_update_ = true ∨ this.override_color_ ≠ some color)) ∧
    (LinkMarker.set_color { this with override_color_ := some color } color).force_update_
      = this.force_update_ ∧
    (LinkMarker.EnvironmentSync
        (LinkMarker.set_color
          (LinkMarker.EnvironmentSync (LinkMarker.set_color this color) env link).2 color)
        env link).1 = false := by
  refine ⟨LinkMarker.set_color_force_update this color, ?_, ?_⟩
  · have h := LinkMarker.set_color_force_update { this with override_color_ := some color } color
    simp only [ne_eq, not_true_eq_false, or_false] at h
    exact Bool.eq_iff_iff.mpr h
  · apply LinkMarker.EnvironmentSync_clean
    · rw [← Bool.not_eq_true, LinkMarker.set_color_force_update]
      rintro (h | h)
      · exact Bool.noConfusion h
      · exact h (LinkMarker.EnvironmentSync_override _ env link)
    · intro geometry hmem hdis
      exact LinkMarker.EnvironmentSync_agrees (LinkMarker.set_color this color) env link
        geometry hmem ((LinkMarker.disagrees_congr rfl env geometry).mp hdis)

/-- C8.  After every `EnvironmentSync`, rebuilt or not, a geometry of the link
whose visibility is false has no entry in `geometry_markers_`: neither a
marker nor the empty sentinel. -/
theorem EnvironmentSync_invisible_has_no_entry (this : LinkMarker) (env : Scene) (link : Link)
    (geometry : GeometryAddr) (hmem : geometry ∈ link.GetGeometries)
    (hvis : (env.geometry geometry).IsVisible = false) :
    (LinkMarker.EnvironmentSync this env link).2.geometry_markers_.find geometry = none := by
  by_contra hfind
  exact LinkMarker.EnvironmentSync_agrees this env link geometry hmem (Or.inr ⟨hvis, hfind⟩)

/-- Witness of C8: the invisible box at address 1 of the sample link. -/
theorem EnvironmentSync_invisible_has_no_entry_witness :
    (1 : GeometryAddr) ∈ sampleLink.GetGeometries ∧
    (sampleScene.geometry 1).IsVisible = false ∧
    (LinkMarker.EnvironmentSync sampleMarker sampleScene sampleLink).2.geometry_markers_.find 1
      = none :=
  ⟨by decide, by decide,
    EnvironmentSync_invisible_has_no_entry sampleMarker sampleScene sampleLink 1
      (by decide) (by decide)⟩

/-- C9.  After a rebuild every visible geometry of the link has an entry in
`geometry_markers_`, and the entry is the empty sentinel exactly when the
per-geometry `CreateGeometry` yields no marker for it. -/
theorem CreateGeometry_records_every_visible (this : LinkMarker) (env : Scene) (link : Link)
    (geometry : GeometryAddr) (hmem : geometry ∈ link.GetGeometries)
    (hvis : (env.geometry geometry).IsVisible = true) :
    ∃ entry,
      (LinkMarker.CreateGeometry this env link).geometry_markers_.find geometry = some entry ∧
      (entry = none ↔
        LinkMarker.CreateGeometry_geometry this env (env.geometry geometry) = none) := by
  unfold LinkMarker.CreateGeometry
  obtain ⟨entry, h1, h2⟩ := (LinkMarker.CreateGeometry.fold_find env link.GetGeometries
    { this with markers := [], geometry_markers_ := [] } geometry).1 ⟨hmem, hvis⟩
  refine ⟨entry, h1, ?_⟩
  rw [h2]
  exact Iff.of_eq (congrArg (· = none) (LinkMarker.CreateGeometry_geometry_congr rfl env _))

/-- Witness of C9: the visible geometry of type none at address 2 of the
sample link. -/
theorem CreateGeometry_records_every_visible_witness :
    (2 : GeometryAddr) ∈ sampleLink.GetGeometries ∧
    (sampleScene.geometry 2).IsVisible = true ∧
    ∃ entry,
      (LinkMarker.CreateGeometry sampleMarker sampleScene sampleLink).geometry_markers_.find 2
        = some entry ∧
      (entry = none ↔
        LinkMarker.CreateGeometry_geometry sampleMarker sampleScene (sampleScene.geometry 2)
          = none) :=
  ⟨by decide, by decide,
    CreateGeometry_records_every_visible sampleMarker sampleScene sampleLink 2
      (by decide) (by decide)⟩

/-! ## Identity strings -/

theorem printDecimal_eq_toString (value : Int) : printDecimal value = (toString value).data := by
  cases value with
  | ofNat n => rfl
  | negSucc n => rfl

theorem LinkMarker.id_data (this : LinkMarker) (link : Link) :
    (LinkMarker.id this link).data =
      "Environment[".data ++ (printDecimal link.GetParent.environment_id ++
        ']' :: (".KinBody[".data ++ (link.GetParent.GetName.data ++
          ("].Link[".data ++ (link.GetName.data ++
            ']' :: (if this.is_ghost_ = true then ".Ghost" else "").data))))) := by
  simp [LinkMarker.id, format, formatChars, FormatArg.text]

/-- C4.  The identity string is `Environment[<envId>].KinBody[<bodyName>].Link[<linkName>]`
with the environment id in decimal, followed by `.Ghost` for a ghost overlay
and by nothing otherwise. -/
theorem id_format (this : LinkMarker) (link : Link) :
    LinkMarker.id this link =
      "Environment[" ++ toString link.GetParent.environment_id ++ "].KinBody["
        ++ link.GetParent.GetName ++ "].Link[" ++ link.GetName ++ "]"
        ++ (if this.is_ghost_ = true then ".Ghost" else "") := by
  apply String.ext
  rw [LinkMarker.id_data]
  simp [String.data_append, printDecimal_eq_toString]

/-! ### Decimal text -/

theorem digitChar_facts (d : Nat) (hd : d < 10) :
    (Nat.digitChar d).toNat - 48 = d ∧ Nat.digitChar d ≠ ']' ∧ Nat.digitChar d ≠ '-' := by
  interval_cases d <;> decide

theorem toDigitsCore_append (fuel n : Nat) (ds : List Char) :
    Nat.toDigitsCore 10 fuel n ds = Nat.toDigitsCore 10 fuel n [] ++ ds := by
  induction fuel generalizing n ds with
  | zero => simp [Nat.toDigitsCore]
  | succ fuel ih =>
    simp only [Nat.toDigitsCore]
    split
    · simp
    · rw [ih (n / 10) (Nat.digitChar (n % 10) :: ds), ih (n / 10) [Nat.digitChar (n % 10)]]
      simp

theorem decimalValue_append_singleton (ds : List Char) (c : Char) :
    decimalValue (ds ++ [c]) = 10 * decimalValue ds + (c.toNat - 48) := by
  simp [decimalValue, List.foldl_append]

theorem decimalValue_toDigitsCore (fuel n : Nat) (h : n < fuel) :
    decimalValue (Nat.toDigitsCore 10 fuel n []) = n := by
  induction fuel generalizing n with
  | zero => exact absurd h (Nat.not_lt_zero n)
  | succ fuel ih =>
    have hd := (digitChar_facts (n % 10) (Nat.mod_lt n (by decide))).1
    simp only [Nat.toDigitsCore]
    split
    · rename_i h0
      have hn : n % 10 = n := Nat.mod_eq_of_lt (by omega)
      rw [hn] at hd
      simp [decimalValue, hd, hn]
    · rename_i h0
      rw [toDigitsCore_append, decimalValue_append_singleton, ih (n / 10) (by omega), hd]
      omega

theorem toDigitsCore_mem (fuel n : Nat) (c : Char) (hc : c ∈ Nat.toDigitsCore 10 fuel n []) :
    c ≠ ']' ∧ c ≠ '-' := by
  induction fuel generalizing n with
  | zero => simp [Nat.toDigitsCore] at hc
  | succ fuel ih =>
    have hd := (digitChar_facts (n % 10) (Nat.mod_lt n (by decide))).2
    simp only [Nat.toDigitsCore] at hc
    split at hc
    · rw [List.mem_singleton] at hc
      rw [hc]
      exact hd
    · rw [toDigitsCore_append, List.mem_append, List.mem_singleton] at hc
      rcases hc with hc | hc
      · exact ih (n / 10) hc
      · rw [hc]
        exact hd

theorem toDigits_injective (n m : Nat) (h : Nat.toDigits 10 n = Nat.toDigits 10 m) : n = m := by
  have hn := decimalValue_toDigitsCore (n + 1) n (Nat.lt_succ_self n)
  have hm := decimalValue_toDigitsCore (m + 1) m (Nat.lt_succ_self m)
  unfold Nat.toDigits at h
  rw [h] at hn
  exact hn.symm.trans hm

theorem printDecimal_injective (a b : Int) (h : printDecimal a = printDecimal b) : a = b := by
  cases a with
  | ofNat n =>
    cases b with
    | ofNat m =>
      simp only [printDecimal] at h
      rw [toDigits_injective n m h]
    | negSucc m =>
      simp only [printDecimal] at h
      have hmem : '-' ∈ Nat.toDigits 10 n := by rw [h]; exact List.mem_cons_self _ _
      exact absurd rfl (toDigitsCore_mem _ _ _ hmem).2
  | negSucc n =>
    cases b with
    | ofNat m =>
      simp only [printDecimal] at h
      have hmem : '-' ∈ Nat.toDigits 10 m := by rw [← h]; exact List.mem_cons_self _ _
      exact absurd rfl (toDigitsCore_mem _ _ _ hmem).2
    | negSucc m =>
      simp only [printDecimal, List.cons.injEq, true_and] at h
      have := toDigits_injective _ _ h
      rw [Nat.add_right_cancel this]

theorem printDecimal_no_bracket (a : Int) : ']' ∉ printDecimal a := by
  intro hmem
  cases a with
  | ofNat n => exact absurd rfl (toDigitsCore_mem _ _ _ hmem).1
  | negSucc n =>
    simp only [printDecimal, List.mem_cons] at hmem
    rcases hmem with h | h
    · exact absurd h (by decide)
    · exact absurd rfl (toDigitsCore_mem _ _ _ h).1

/-! ### Splitting a text at a delimiter -/

/-- A text is split in one way only at a character that occurs in neither prefix. -/
theorem split_at_fresh {c : Char} {a b x y : List Char} (ha : c ∉ a) (hb : c ∉ b)
    (h : a ++ c :: x = b ++ c :: y) : a = b ∧ x = y := by
  induction a generalizing b with
  | nil =>
    cases b with
    | nil => simpa using h
    | cons d b =>
      simp only [List.nil_append, List.cons_append, List.cons.injEq] at h
      exact absurd (List.mem_cons.mpr (Or.inl h.1)) hb
  | cons e a ih =>
    cases b with
    | nil =>
      simp only [List.nil_append, List.cons_append, List.cons.injEq] at h
      exact absurd (List.mem_cons.mpr (Or.inl h.1.symm)) ha
    | cons d b =>
      simp only [List.cons_append, List.cons.injEq] at h
      obtain ⟨h1, h2⟩ := ih (fun hm => ha (List.mem_cons_of_mem _ hm))
        (fun hm => hb (List.mem_cons_of_mem _ hm)) h.2
      exact ⟨by rw [h.1, h1], h2⟩

/-- One half of `split_at_pattern`: the second prefix extends the first. -/
theorem split_at_pattern_aux {c : Char} {p a t x y : List Char} (hc : c ∉ p)
    (hb : ¬ (c :: p) <:+: (a ++ t))
    (h : (c :: p) ++ x = t ++ ((c :: p) ++ y)) : t = [] := by
  rcases List.append_eq_append_iff.mp h with ⟨u, hu, _⟩ | ⟨v, hv, hx⟩
  · exact absurd ⟨a, u, by rw [hu, List.append_assoc]⟩ hb
  · cases t with
    | nil => rfl
    | cons d t =>
      exfalso
      simp only [List.cons_append, List.cons.injEq] at hv
      cases v with
      | nil =>
        apply hb
        refine ⟨a, [], ?_⟩
        rw [List.append_nil, ← hv.1, hv.2, List.append_nil]
      | cons e v =>
        simp only [List.cons_append, List.cons.injEq] at hx
        apply hc
        rw [hv.2, hx.1]
        exact List.mem_append_right _ (List.mem_cons_self _ _)

/-- A text is split in one way only at a delimiter whose first character does
not recur in it, when the delimiter occurs in neither prefix. -/
theorem split_at_pattern {c : Char} {p a b x y : List Char} (hc : c ∉ p)
    (ha : ¬ (c :: p) <:+: a) (hb : ¬ (c :: p) <:+: b)
    (h : a ++ ((c :: p) ++ x) = b ++ ((c :: p) ++ y)) : a = b ∧ x = y := by
  rcases List.append_eq_append_iff.mp h with ⟨t, ht, hx⟩ | ⟨t, ht, hx⟩
  · have : t = [] := split_at_pattern_aux hc (by rw [← ht]; exact hb) hx
    subst this
    rw [List.append_nil] at ht
    rw [List.nil_append] at hx
    exact ⟨ht.symm, List.append_cancel_left hx⟩
  · have : t = [] := split_at_pattern_aux hc (by rw [← ht]; exact ha) hx
    subst this
    rw [List.append_nil] at ht
    rw [List.nil_append] at hx
    exact ⟨ht, (List.append_cancel_left hx).symm⟩

/-- The link name and the ghost suffix are recovered from the end of an
identity string. -/
theorem split_link_suffix {l₁ l₂ : List Char} {g₁ g₂ : Bool}
    (h : l₁ ++ ']' :: (if g₁ = true then ".Ghost" else "").data
      = l₂ ++ ']' :: (if g₂ = true then ".Ghost" else "").data) : l₁ = l₂ ∧ g₁ = g₂ := by
  cases g₁ <;> cases g₂
  · exact ⟨List.append_cancel_right h, rfl⟩
  · have := congrArg List.reverse h
    simp at this
  · have := congrArg List.reverse h
    simp at this
  · exact ⟨List.append_cancel_right h, rfl⟩

/-! ### Distinct identities -/

/-- With the environment id and the body name fixed, the identity string
determines the link name and the ghost flag. -/
theorem LinkMarker.id_same_body (this₁ this₂ : LinkMarker) (link₁ link₂ : Link)
    (henv : link₁.GetParent.environment_id = link₂.GetParent.environment_id)
    (hbody : link₁.GetParent.GetName = link₂.GetParent.GetName)
    (h : LinkMarker.id this₁ link₁ = LinkMarker.id this₂ link₂) :
    link₁.GetName = link₂.GetName ∧ this₁.is_ghost_ = this₂.is_ghost_ := by
  have hd := congrArg String.data h
  rw [LinkMarker.id_data, LinkMarker.id_data, henv, hbody] at hd
  have h1 := List.append_cancel_left hd
  have h2 := List.append_cancel_left h1
  simp only [List.cons.injEq, true_and] at h2
  have h3 := List.append_cancel_left (List.append_cancel_left (List.append_cancel_left h2))
  obtain ⟨hl, hg⟩ := split_link_suffix h3
  exact ⟨String.ext hl, hg⟩

/-- The identity string determines the whole tuple when the delimiter
`].Link[` occurs in neither body name. -/
theorem LinkMarker.id_determines_identity (this₁ this₂ : LinkMarker) (link₁ link₂ : Link)
    (h₁ : ¬ "].Link[".data <:+: link₁.GetParent.GetName.data)
    (h₂ : ¬ "].Link[".data <:+: link₂.GetParent.GetName.data)
    (h : LinkMarker.id this₁ link₁ = LinkMarker.id this₂ link₂) :
    LinkMarker.identity this₁ link₁ = LinkMarker.identity this₂ link₂ := by
  have hd := congrArg String.data h
  rw [LinkMarker.id_data, LinkMarker.id_data] at hd
  obtain ⟨henv, hrest⟩ := split_at_fresh (printDecimal_no_bracket _) (printDecimal_no_bracket _)
    (List.append_cancel_left hd)
  have henv := printDecimal_injective _ _ henv
  obtain ⟨hbody, -⟩ := split_at_pattern (c := ']') (p := ".Link[".data) (by decide) h₁ h₂
    (List.append_cancel_left hrest)
  have hbody := String.ext hbody
  obtain ⟨hlink, hghost⟩ := LinkMarker.id_same_body this₁ this₂ link₁ link₂ henv hbody h
  simp only [LinkMarker.identity, henv, hbody, hlink, hghost]

/-- C5, as stated, fails: the body `a].Link[b` with link `c` and the body `a`
with link `b].Link[c` are different tuples with one identity string. -/
theorem id_collision :
    LinkMarker.identity sampleMarker ⟨"c", ⟨"a].Link[b", 1⟩, sampleLink.GetTransform, []⟩
      ≠ LinkMarker.identity sampleMarker ⟨"b].Link[c", ⟨"a", 1⟩, sampleLink.GetTransform, []⟩ ∧
    LinkMarker.id sampleMarker ⟨"c", ⟨"a].Link[b", 1⟩, sampleLink.GetTransform, []⟩
      = LinkMarker.id sampleMarker ⟨"b].Link[c", ⟨"a", 1⟩, sampleLink.GetTransform, []⟩ := by
  decide

/-- C5, amended.  Two tuples (environment id, body name, link name, ghost
flag) that differ in any component have different identity strings, provided
neither body name contains the text `].Link[`. -/
theorem id_injective_without_delimiter (this₁ this₂ : LinkMarker) (link₁ link₂ : Link)
    (h₁ : ¬ "].Link[".data <:+: link₁.GetParent.GetName.data)
    (h₂ : ¬ "].Link[".data <:+: link₂.GetParent.GetName.data)
    (hne : LinkMarker.identity this₁ link₁ ≠ LinkMarker.identity this₂ link₂) :
    LinkMarker.id this₁ link₁ ≠ LinkMarker.id this₂ link₂ :=
  fun h => hne (LinkMarker.id_determines_identity this₁ this₂ link₁ link₂ h₁ h₂ h)

/-- Witness of C5, amended: the live overlays of `robot`/`hand` in
environments 1 and 2. -/
theorem id_injective_without_delimiter_witness :
    ¬ "].Link[".data <:+: sampleLink.GetParent.GetName.data ∧
    LinkMarker.identity sampleMarker sampleLink
      ≠ LinkMarker.identity sampleMarker { sampleLink with GetParent := ⟨"robot", 2⟩ } ∧
    LinkMarker.id sampleMarker sampleLink
      ≠ LinkMarker.id sampleMarker { sampleLink with GetParent := ⟨"robot", 2⟩ } :=
  ⟨by decide, by decide,
    id_injective_without_delimiter sampleMarker sampleMarker sampleLink
      { sampleLink with GetParent := ⟨"robot", 2⟩ } (by decide) (by decide) (by decide)⟩

/-- C6.  For one environment id, body name and link name (one link), the
identity string of a ghost overlay differs from that of a live overlay. -/
theorem id_ghost_ne_live (ghost live : LinkMarker) (link : Link)
    (hghost : ghost.is_ghost_ = true) (hlive : live.is_ghost_ = false) :
    LinkMarker.id ghost link ≠ LinkMarker.id live link := by
  intro h
  have hflag := (LinkMarker.id_same_body ghost live link link rfl rfl h).2
  rw [hghost, hlive] at hflag
  exact Bool.noConfusion hflag

/-- Witness of C6: the ghost and the live overlay of the sample link. -/
theorem id_ghost_ne_live_witness :
    (LinkMarker.create [] sampleLink true).is_ghost_ = true ∧
    sampleMarker.is_ghost_ = false ∧
    LinkMarker.id (LinkMarker.create [] sampleLink true) sampleLink
      ≠ LinkMarker.id sampleMarker sampleLink :=
  ⟨rfl, rfl,
    id_ghost_ne_live (LinkMarker.create [] sampleLink true) sampleMarker sampleLink rfl rfl⟩

/-- C7.  Two links of one body in one environment with different names have
different identity strings, whatever the two ghost flags; and the identity
string is a function of the tuple (environment id, body name, link name,
ghost flag) alone, so that repeated calls on unchanged inputs agree. -/
theorem id_distinct_link_names (this₁ this₂ : LinkMarker) (link₁ link₂ : Link)
    (henv : link₁.GetParent.environment_id = link₂.GetParent.environment_id)
    (hbody : link₁.GetParent.GetName = link₂.GetParent.GetName) :
    (link₁.GetName ≠ link₂.GetName → LinkMarker.id this₁ link₁ ≠ LinkMarker.id this₂ link₂) ∧
    (LinkMarker.identity this₁ link₁ = LinkMarker.identity this₂ link₂ →
      LinkMarker.id this₁ link₁ = LinkMarker.id this₂ link₂) := by
  constructor
  · intro hne h
    exact hne (LinkMarker.id_same_body this₁ this₂ link₁ link₂ henv hbody h).1
  · intro hid
    simp only [LinkMarker.identity, Prod.mk.injEq] at hid
    apply String.ext
    rw [LinkMarker.id_data, LinkMarker.id_data, hid.1, hid.2.1, hid.2.2.1, hid.2.2.2]

/-- Witness of C7: the links `hand` and `arm` of the sample body, one overlay
live and one ghost. -/
theorem id_distinct_link_names_witness :
    sampleLink.GetParent.environment_id
      = { sampleLink with GetName := "arm" }.GetParent.environment_id ∧
    sampleLink.GetParent.GetName = { sampleLink with GetName := "arm" }.GetParent.GetName ∧
    sampleLink.GetName ≠ { sampleLink with GetName := "arm" }.GetName ∧
    LinkMarker.id sampleMarker sampleLink
      ≠ LinkMarker.id (LinkMarker.create [] sampleLink true)
          { sampleLink with GetName := "arm" } :=
  ⟨rfl, rfl, by decide,
    (id_distinct_link_names sampleMarker (LinkMarker.create [] sampleLink true) sampleLink
      { sampleLink with GetName := "arm" } rfl rfl).1 (by decide)⟩

/-! ## Triangle meshes -/

theorem LinkMarker.TriMeshToMarker_points_length (trimesh : TriMesh) (marker : Marker) :
    (LinkMarker.TriMeshToMarker trimesh marker).points.length = 3 * trimesh.indices.length := by
  have key : ∀ (positions : List Nat) (points : List Point),
      (positions.foldl (fun points i =>
        points ++ [toROSPoint (LinkMarker.vertexAt trimesh (i + 0)),
          toROSPoint (LinkMarker.vertexAt trimesh (i + 1)),
          toROSPoint (LinkMarker.vertexAt trimesh (i + 2))]) points).length
        = points.length + 3 * positions.length := by
    intro positions
    induction positions with
    | nil => intro points; simp
    | cons i rest ih =>
      intro points
      rw [List.foldl_cons, ih]
      simp only [List.length_append, List.length_cons, List.length_nil]
      omega
  simpa [LinkMarker.TriMeshToMarker] using key (List.range trimesh.indices.length) []

/-- C10 fails on the code.  For the one-triangle mesh `sampleTriMesh` (three
indices `0, 1, 2`, all in range) `TriMeshToMarker` pushes nine points, three
for every index position, read at consecutive vertex positions without looking
at the indices; the triangle list of the claim has the three points of the
referenced vertices. -/
theorem TriMeshToMarker_sample_points :
    sampleTriMesh.indices.length % 3 = 0 ∧
    (∀ index ∈ sampleTriMesh.indices, 0 ≤ index ∧ index.toNat < sampleTriMesh.vertices.length) ∧
    (LinkMarker.TriMeshToMarker sampleTriMesh (Marker.fresh (toROSPose sampleLink.GetTransform))).points
      = [⟨0, 0, 0⟩, ⟨1, 0, 0⟩, ⟨0, 1, 0⟩, ⟨1, 0, 0⟩, ⟨0, 1, 0⟩, ⟨0, 0, 1⟩,
          ⟨0, 1, 0⟩, ⟨0, 0, 1⟩, ⟨1, 1, 1⟩] ∧
    indexedPoints sampleTriMesh = [⟨0, 0, 0⟩, ⟨1, 0, 0⟩, ⟨0, 1, 0⟩] ∧
    (LinkMarker.TriMeshToMarker sampleTriMesh (Marker.fresh (toROSPose sampleLink.GetTransform))).points
      ≠ indexedPoints sampleTriMesh := by
  decide

/-! ## The marker of one geometry -/

theorem starts_with_empty : starts_with "" "__norenderif__" = false := by decide

theorem HasRVizSupport_ne_empty (uri : String) (h : LinkMarker.HasRVizSupport uri = true) :
    uri ≠ "" := by
  intro he
  rw [he] at h
  exact absurd h (by decide)

/-- The mesh-resource branch: a path that is kept and that RViz supports
yields a marker referring to the file, with embedded materials exactly when no
override is active and the path has a texture. -/
theorem LinkMarker.CreateGeometry_geometry_supported (this : LinkMarker) (env : Scene)
    (geometry : Geometry)
    (hno : starts_with geometry.GetRenderFilename "__norenderif__" = false)
    (hsup : LinkMarker.HasRVizSupport geometry.GetRenderFilename = true) :
    ∃ marker, LinkMarker.CreateGeometry_geometry this env geometry = some marker ∧
      marker.type = MarkerType.MESH_RESOURCE ∧
      marker.mesh_use_embedded_materials
        = (this.override_color_.isNone && LinkMarker.HasTexture geometry.GetRenderFilename) ∧
      (marker.mesh_use_embedded_materials = true → marker.color = ⟨0, 0, 0, 0⟩) := by
  have hne := HasRVizSupport_ne_empty _ hsup
  unfold LinkMarker.CreateGeometry_geometry
  simp only [hno, Bool.false_eq_true, if_false]
  rw [if_pos ⟨hne, hsup⟩]
  cases h : (this.override_color_.isNone && LinkMarker.HasTexture geometry.GetRenderFilename)
  · exact ⟨_, rfl, rfl, rfl, fun hf => Bool.noConfusion hf⟩
  · exact ⟨_, rfl, rfl, rfl, fun _ => rfl⟩

/-- The primitive branch: without render filename the marker is decided by
the geometry type. -/
theorem LinkMarker.CreateGeometry_geometry_primitive (this : LinkMarker) (env : Scene)
    (geometry : Geometry) (hpath : geometry.GetRenderFilename = "") :
    LinkMarker.CreateGeometry_geometry this env geometry =
      LinkMarker.CreateGeometry_geometry this
        { geometry := env.geometry, ReadTrimeshURI := fun _ => none } geometry ∧
    ((LinkMarker.CreateGeometry_geometry this env geometry).isSome = true ↔
      (geometry.GetType = GeometryType.GT_Box ∨ geometry.GetType = GeometryType.GT_Sphere ∨
        geometry.GetType = GeometryType.GT_Cylinder)) ∧
    ∀ marker, LinkMarker.CreateGeometry_geometry this env geometry = some marker →
      (geometry.GetType = GeometryType.GT_Box → marker.type = MarkerType.CUBE ∧
        marker.scale = ⟨2 * geometry.GetBoxExtents.x, 2 * geometry.GetBoxExtents.y,
          2 * geometry.GetBoxExtents.z⟩) ∧
      (geometry.GetType = GeometryType.GT_Sphere → marker.type = MarkerType.SPHERE ∧
        marker.scale = ⟨geometry.GetSphereRadius / 2, geometry.GetSphereRadius / 2,
          geometry.GetSphereRadius / 2⟩) ∧
      (geometry.GetType = GeometryType.GT_Cylinder → marker.type = MarkerType.CYLINDER ∧
        marker.scale = ⟨geometry.GetCylinderRadius / 2, geometry.GetCylinderRadius / 2,
          geometry.GetCylinderHeight⟩) := by
  unfold LinkMarker.CreateGeometry_geometry
  simp only [hpath, starts_with_empty, Bool.false_eq_true, if_false, ne_eq, not_true_eq_false,
    false_and]
  cases geometry.GetType <;>
    simp [toROSVector, mul_comm, div_eq_inv_mul]

/-- C11.  For a render filename that does not start with `__norenderif__`:
if it ends in `.dae` in any letter case, the per-geometry `CreateGeometry`
yields a mesh-resource marker whose embedded-materials flag is true exactly
when no colour override is active, and whose colour is (0,0,0,0) when the flag
is true; if RViz supports it and it does not end in `.dae`, the marker is a
mesh resource with the flag false. -/
theorem CreateGeometry_embedded_materials (this : LinkMarker) (env : Scene)
    (geometry : Geometry)
    (hno : starts_with geometry.GetRenderFilename "__norenderif__" = false) :
    (iends_with geometry.GetRenderFilename ".dae" = true →
      ∃ marker, LinkMarker.CreateGeometry_geometry this env geometry = some marker ∧
        marker.type = MarkerType.MESH_RESOURCE ∧
        (marker.mesh_use_embedded_materials = true ↔ this.override_color_ = none) ∧
        (marker.mesh_use_embedded_materials = true → marker.color = ⟨0, 0, 0, 0⟩)) ∧
    (LinkMarker.HasRVizSupport geometry.GetRenderFilename = true →
      iends_with geometry.GetRenderFilename ".dae" = false →
      ∃ marker, LinkMarker.CreateGeometry_geometry this env geometry = some marker ∧
        marker.type = MarkerType.MESH_RESOURCE ∧
        marker.mesh_use_embedded_materials = false) := by
  constructor
  · intro hdae
    have hsup : LinkMarker.HasRVizSupport geometry.GetRenderFilename = true := by
      simp [LinkMarker.HasRVizSupport, hdae]
    obtain ⟨marker, h1, h2, h3, h4⟩ :=
      LinkMarker.CreateGeometry_geometry_supported this env geometry hno hsup
    refine ⟨marker, h1, h2, ?_, h4⟩
    rw [h3]
    cases this.override_color_ <;> simp [LinkMarker.HasTexture, hdae]
  · intro hsup hdae
    obtain ⟨marker, h1, h2, h3, -⟩ :=
      LinkMarker.CreateGeometry_geometry_supported this env geometry hno hsup
    refine ⟨marker, h1, h2, ?_⟩
    rw [h3]
    simp [LinkMarker.HasTexture, hdae]

/-- Witness of C11: the files `hand.DAE` and `hand.stl` on the sample overlay,
which has no colour override. -/
theorem CreateGeometry_embedded_materials_witness :
    starts_with (sampleMeshGeometry "hand.DAE").GetRenderFilename "__norenderif__" = false ∧
    iends_with (sampleMeshGeometry "hand.DAE").GetRenderFilename ".dae" = true ∧
    (∃ marker,
      LinkMarker.CreateGeometry_geometry sampleMarker sampleScene (sampleMeshGeometry "hand.DAE")
        = some marker ∧
      marker.type = MarkerType.MESH_RESOURCE ∧
      (marker.mesh_use_embedded_materials = true ↔ sampleMarker.override_color_ = none) ∧
      (marker.mesh_use_embedded_materials = true → marker.color = ⟨0, 0, 0, 0⟩)) ∧
    starts_with (sampleMeshGeometry "hand.stl").GetRenderFilename "__norenderif__" = false ∧
    ∃ marker,
      LinkMarker.CreateGeometry_geometry sampleMarker sampleScene (sampleMeshGeometry "hand.stl")
        = some marker ∧
      marker.type = MarkerType.MESH_RESOURCE ∧
      marker.mesh_use_embedded_materials = false :=
  ⟨by decide, by decide,
    (CreateGeometry_embedded_materials sampleMarker sampleScene (sampleMeshGeometry "hand.DAE")
      (by decide)).1 (by decide),
    by decide,
    (CreateGeometry_embedded_materials sampleMarker sampleScene (sampleMeshGeometry "hand.stl")
      (by decide)).2 (by decide) (by decide)⟩

/-- C12.  A box without render filename and with half-extents (x, y, z)
yields a cube marker of scale (2x, 2y, 2z); half-extents (1, 2, 3) yield the
scale (2, 4, 6). -/
theorem CreateGeometry_box_scale (this : LinkMarker) (env : Scene) (geometry : Geometry)
    (hpath : geometry.GetRenderFilename = "") (htype : geometry.GetType = GeometryType.GT_Box) :
    ∃ marker, LinkMarker.CreateGeometry_geometry this env geometry = some marker ∧
      marker.type = MarkerType.CUBE ∧
      marker.scale = ⟨2 * geometry.GetBoxExtents.x, 2 * geometry.GetBoxExtents.y,
        2 * geometry.GetBoxExtents.z⟩ ∧
      (geometry.GetBoxExtents.x = 1 → geometry.GetBoxExtents.y = 2 →
        geometry.GetBoxExtents.z = 3 → marker.scale = ⟨2, 4, 6⟩) := by
  obtain ⟨-, hsome, hshape⟩ :=
    LinkMarker.CreateGeometry_geometry_primitive this env geometry hpath
  obtain ⟨marker, hm⟩ := Option.isSome_iff_exists.mp (hsome.mpr (Or.inl htype))
  obtain ⟨h1, h2⟩ := (hshape marker hm).1 htype
  refine ⟨marker, hm, h1, h2, ?_⟩
  intro hx hy hz
  rw [h2, hx, hy, hz]
  norm_num

/-- Witness of C12: the sample box, whose half-extents are (1, 2, 3). -/
theorem CreateGeometry_box_scale_witness :
    (sampleGeometry true GeometryType.GT_Box).GetRenderFilename = "" ∧
    (sampleGeometry true GeometryType.GT_Box).GetType = GeometryType.GT_Box ∧
    ∃ marker,
      LinkMarker.CreateGeometry_geometry sampleMarker sampleScene
        (sampleGeometry true GeometryType.GT_Box) = some marker ∧
      marker.type = MarkerType.CUBE ∧
      marker.scale = ⟨2 * (sampleGeometry true GeometryType.GT_Box).GetBoxExtents.x,
        2 * (sampleGeometry true GeometryType.GT_Box).GetBoxExtents.y,
        2 * (sampleGeometry true GeometryType.GT_Box).GetBoxExtents.z⟩ ∧
      ((sampleGeometry true GeometryType.GT_Box).GetBoxExtents.x = 1 →
        (sampleGeometry true GeometryType.GT_Box).GetBoxExtents.y = 2 →
        (sampleGeometry true GeometryType.GT_Box).GetBoxExtents.z = 3 →
        marker.scale = ⟨2, 4, 6⟩) :=
  ⟨rfl, rfl,
    CreateGeometry_box_scale sampleMarker sampleScene (sampleGeometry true GeometryType.GT_Box)
      rfl rfl⟩

/-- C13.  Without render filename, a sphere of radius r yields a sphere marker
of scale (r/2, r/2, r/2), and a cylinder of radius r and height h yields a
cylinder marker of scale (r/2, r/2, h). -/
theorem CreateGeometry_sphere_cylinder_scale (this : LinkMarker) (env : Scene)
    (geometry : Geometry) (hpath : geometry.GetRenderFilename = "") :
    (geometry.GetType = GeometryType.GT_Sphere →
      ∃ marker, LinkMarker.CreateGeometry_geometry this env geometry = some marker ∧
        marker.type = MarkerType.SPHERE ∧
        marker.scale = ⟨geometry.GetSphereRadius / 2, geometry.GetSphereRadius / 2,
          geometry.GetSphereRadius / 2⟩) ∧
    (geometry.GetType = GeometryType.GT_Cylinder →
      ∃ marker, LinkMarker.CreateGeometry_geometry this env geometry = some marker ∧
        marker.type = MarkerType.CYLINDER ∧
        marker.scale = ⟨geometry.GetCylinderRadius / 2, geometry.GetCylinderRadius / 2,
          geometry.GetCylinderHeight⟩) := by
  obtain ⟨-, hsome, hshape⟩ :=
    LinkMarker.CreateGeometry_geometry_primitive this env geometry hpath
  constructor
  · intro htype
    obtain ⟨marker, hm⟩ := Option.isSome_iff_exists.mp (hsome.mpr (Or.inr (Or.inl htype)))
    exact ⟨marker, hm, (hshape marker hm).2.1 htype⟩
  · intro htype
    obtain ⟨marker, hm⟩ := Option.isSome_iff_exists.mp (hsome.mpr (Or.inr (Or.inr htype)))
    exact ⟨marker, hm, (hshape marker hm).2.2 htype⟩

/-- Witness of C13: the sample sphere and the sample cylinder. -/
theorem CreateGeometry_sphere_cylinder_scale_witness :
    (sampleGeometry true GeometryType.GT_Sphere).GetRenderFilename = "" ∧
    (∃ marker,
      LinkMarker.CreateGeometry_geometry sampleMarker sampleScene
        (sampleGeometry true GeometryType.GT_Sphere) = some marker ∧
      marker.type = MarkerType.SPHERE ∧
      marker.scale = ⟨(sampleGeometry true GeometryType.GT_Sphere).GetSphereRadius / 2,
        (sampleGeometry true GeometryType.GT_Sphere).GetSphereRadius / 2,
        (sampleGeometry true GeometryType.GT_Sphere).GetSphereRadius / 2⟩) ∧
    ∃ marker,
      LinkMarker.CreateGeometry_geometry sampleMarker sampleScene
        (sampleGeometry true GeometryType.GT_Cylinder) = some marker ∧
      marker.type = MarkerType.CYLINDER ∧
      marker.scale = ⟨(sampleGeometry true GeometryType.GT_Cylinder).GetCylinderRadius / 2,
        (sampleGeometry true GeometryType.GT_Cylinder).GetCylinderRadius / 2,
        (sampleGeometry true GeometryType.GT_Cylinder).GetCylinderHeight⟩ :=
  ⟨rfl,
    (CreateGeometry_sphere_cylinder_scale sampleMarker sampleScene
      (sampleGeometry true GeometryType.GT_Sphere) rfl).1 rfl,
    (CreateGeometry_sphere_cylinder_scale sampleMarker sampleScene
      (sampleGeometry true GeometryType.GT_Cylinder) rfl).2 rfl⟩

/-- C14.  Without render filename the per-geometry `CreateGeometry` always
returns, and it yields no marker exactly when the geometry type is none,
TriMesh or an unknown one, that is, any type other than Box, Sphere and
Cylinder. -/
theorem CreateGeometry_no_marker_iff (this : LinkMarker) (env : Scene) (geometry : Geometry)
    (hpath : geometry.GetRenderFilename = "") :
    (LinkMarker.CreateGeometry_geometry this env geometry = none ↔
      (geometry.GetType = GeometryType.GT_None ∨ geometry.GetType = GeometryType.GT_TriMesh ∨
        ∃ code, geometry.GetType = GeometryType.GT_Other code)) ∧
    (LinkMarker.CreateGeometry_geometry this env geometry = none ↔
      (geometry.GetType ≠ GeometryType.GT_Box ∧ geometry.GetType ≠ GeometryType.GT_Sphere ∧
        geometry.GetType ≠ GeometryType.GT_Cylinder)) := by
  obtain ⟨-, hsome, -⟩ := LinkMarker.CreateGeometry_geometry_primitive this env geometry hpath
  have hnone : LinkMarker.CreateGeometry_geometry this env geometry = none ↔
      ¬ (geometry.GetType = GeometryType.GT_Box ∨ geometry.GetType = GeometryType.GT_Sphere ∨
        geometry.GetType = GeometryType.GT_Cylinder) := by
    rw [← hsome]
    cases LinkMarker.CreateGeometry_geometry this env geometry <;> simp
  rw [hnone]
  cases geometry.GetType <;> simp

/-- Witness of C14: a geometry of an unknown type. -/
theorem CreateGeometry_no_marker_iff_witness :
    (sampleGeometry true (GeometryType.GT_Other 7)).GetRenderFilename = "" ∧
    LinkMarker.CreateGeometry_geometry sampleMarker sampleScene
      (sampleGeometry true (GeometryType.GT_Other 7)) = none :=
  ⟨rfl,
    (CreateGeometry_no_marker_iff sampleMarker sampleScene
      (sampleGeometry true (GeometryType.GT_Other 7)) rfl).1.mpr (Or.inr (Or.inr ⟨7, rfl⟩))⟩

namespace LinkMarker

theorem CreateGeometry.step_frame (env : Scene) (this : LinkMarker) (geometry : GeometryAddr) :
    (CreateGeometry.step env this geometry).name = this.name ∧
    (CreateGeometry.step env this geometry).server_ = this.server_ ∧
    (CreateGeometry.step env this geometry).is_ghost_ = this.is_ghost_ := by
  unfold CreateGeometry.step
  split
  · exact ⟨rfl, rfl, rfl⟩
  · split <;> exact ⟨rfl, rfl, rfl⟩

theorem CreateGeometry.fold_frame (env : Scene) (geometries : List GeometryAddr)
    (this : LinkMarker) :
    (geometries.foldl (CreateGeometry.step env) this).name = this.name ∧
    (geometries.foldl (CreateGeometry.step env) this).server_ = this.server_ ∧
    (geometries.foldl (CreateGeometry.step env) this).is_ghost_ = this.is_ghost_ := by
  induction geometries generalizing this with
  | nil => exact ⟨rfl, rfl, rfl⟩
  | cons g rest ih =>
    rw [List.foldl_cons]
    obtain ⟨h1, h2, h3⟩ := ih (CreateGeometry.step env this g)
    obtain ⟨s1, s2, s3⟩ := CreateGeometry.step_frame env this g
    exact ⟨h1.trans s1, h2.trans s2, h3.trans s3⟩

theorem visibleMarker_congr {a b : LinkMarker} (h : a.override_color_ = b.override_color_)
    (env : Scene) : visibleMarker a env = visibleMarker b env := by
  funext geometry
  unfold visibleMarker
  rw [CreateGeometry_geometry_congr h]

theorem CreateGeometry.step_markers (env : Scene) (this : LinkMarker)
    (geometry : GeometryAddr) :
    (CreateGeometry.step env this geometry).markers
      = this.markers ++ (visibleMarker this env geometry).toList := by
  unfold CreateGeometry.step visibleMarker
  cases hvis : (env.geometry geometry).IsVisible
  · simp
  · cases CreateGeometry_geometry this env (env.geometry geometry) <;> simp

theorem CreateGeometry.fold_markers (env : Scene) (geometries : List GeometryAddr)
    (this : LinkMarker) :
    (geometries.foldl (CreateGeometry.step env) this).markers
      = this.markers ++ geometries.filterMap (visibleMarker this env) := by
  induction geometries generalizing this with
  | nil => simp
  | cons g rest ih =>
    rw [List.foldl_cons, ih, CreateGeometry.step_markers,
      visibleMarker_congr (CreateGeometry.step_override env this g) env, List.append_assoc]
    cases hvm : visibleMarker this env g <;> simp [List.filterMap_cons, hvm]

theorem CreateGeometry_markers (this : LinkMarker) (env : Scene) (link : Link) :
    (CreateGeometry this env link).markers
      = link.GetGeometries.filterMap (visibleMarker this env) := by
  unfold CreateGeometry
  rw [CreateGeometry.fold_markers, List.nil_append]
  exact congrArg (fun f => link.GetGeometries.filterMap f) (visibleMarker_congr rfl env)

end LinkMarker

/-- C15.  A rebuild leaves as submarker list the markers of the visible
geometries that yield one, in the order of the link.  A geometry that yields
no marker does not stop the rebuild and leaves the markers of the other
geometries as they are: the list is that of the link without it. -/
theorem CreateGeometry_submarker_list (this : LinkMarker) (env : Scene) (link : Link) :
    (LinkMarker.CreateGeometry this env link).markers
      = link.GetGeometries.filterMap (LinkMarker.visibleMarker this env) ∧
    ∀ front back geometry, link.GetGeometries = front ++ geometry :: back →
      LinkMarker.CreateGeometry_geometry this env (env.geometry geometry) = none →
      (LinkMarker.CreateGeometry this env link).markers
        = (LinkMarker.CreateGeometry this env
            { link with GetGeometries := front ++ back }).markers := by
  refine ⟨LinkMarker.CreateGeometry_markers this env link, ?_⟩
  intro front back geometry hlink hnone
  rw [LinkMarker.CreateGeometry_markers, LinkMarker.CreateGeometry_markers, hlink]
  have hvm : LinkMarker.visibleMarker this env geometry = none := by
    unfold LinkMarker.visibleMarker
    rw [hnone]
    simp
  simp [List.filterMap_append, List.filterMap_cons, hvm]

/-- Witness of C15: on the sample link the geometry of type none at address 2
yields no marker, and the list is that of the link with the addresses 0 and 1. -/
theorem CreateGeometry_submarker_list_witness :
    sampleLink.GetGeometries = [0, 1] ++ 2 :: [] ∧
    LinkMarker.CreateGeometry_geometry sampleMarker sampleScene (sampleScene.geometry 2) = none ∧
    (LinkMarker.CreateGeometry sampleMarker sampleScene sampleLink).markers
      = (LinkMarker.CreateGeometry sampleMarker sampleScene
          { sampleLink with GetGeometries := [0, 1] ++ [] }).markers :=
  ⟨rfl, by decide,
    (CreateGeometry_submarker_list sampleMarker sampleScene sampleLink).2 [0, 1] [] 2 rfl
      (by decide)⟩

/-- C17.  An `EnvironmentSync` that returns true replaces the submarker list
by the rebuilt one and appends exactly one `insert` of the overlay to the
server log; one that returns false appends nothing and leaves the submarker
list and `geometry_markers_` as they were. -/
theorem EnvironmentSync_server_calls (this : LinkMarker) (env : Scene) (link : Link) :
    ((LinkMarker.EnvironmentSync this env link).1 = true →
      (LinkMarker.EnvironmentSync this env link).2.markers
        = link.GetGeometries.filterMap (LinkMarker.visibleMarker this env) ∧
      (LinkMarker.EnvironmentSync this env link).2.geometry_markers_
        = (LinkMarker.CreateGeometry this env link).geometry_markers_ ∧
      (LinkMarker.EnvironmentSync this env link).2.server_
        = this.server_ ++
          [ServerCall.insert this.name (LinkMarker.EnvironmentSync this env link).2.markers]) ∧
    ((LinkMarker.EnvironmentSync this env link).1 = false →
      (LinkMarker.EnvironmentSync this env link).2.server_ = this.server_ ∧
      (LinkMarker.EnvironmentSync this env link).2.markers = this.markers ∧
      (LinkMarker.EnvironmentSync this env link).2.geometry_markers_
        = this.geometry_markers_) := by
  have hframe := LinkMarker.CreateGeometry.fold_frame env link.GetGeometries
    { this with markers := [], geometry_markers_ := [] }
  have hmarkers := LinkMarker.CreateGeometry_markers this env link
  unfold LinkMarker.EnvironmentSync
  unfold LinkMarker.CreateGeometry at hmarkers ⊢
  dsimp only at hframe hmarkers ⊢
  constructor
  · intro h
    rw [if_pos h]
    dsimp only
    rw [hframe.1, hframe.2.1, hmarkers]
    exact ⟨rfl, rfl, rfl⟩
  · intro h
    rw [if_neg (by rw [h]; exact Bool.false_ne_true)]
    exact ⟨rfl, rfl, rfl⟩

/-- Witness of C17: the first synchronisation of the sample overlay rebuilds,
the second does not. -/
theorem EnvironmentSync_server_calls_witness :
    (LinkMarker.EnvironmentSync sampleMarker sampleScene sampleLink).1 = true ∧
    (LinkMarker.EnvironmentSync sampleMarker sampleScene sampleLink).2.server_
      = sampleMarker.server_ ++
        [ServerCall.insert sampleMarker.name
          (LinkMarker.EnvironmentSync sampleMarker sampleScene sampleLink).2.markers] ∧
    (LinkMarker.EnvironmentSync
      (LinkMarker.EnvironmentSync sampleMarker sampleScene sampleLink).2
      sampleScene sampleLink).1 = false ∧
    (LinkMarker.EnvironmentSync
      (LinkMarker.EnvironmentSync sampleMarker sampleScene sampleLink).2
      sampleScene sampleLink).2.server_
      = (LinkMarker.EnvironmentSync sampleMarker sampleScene sampleLink).2.server_ :=
  ⟨by decide,
    ((EnvironmentSync_server_calls sampleMarker sampleScene sampleLink).1 (by decide)).2.2,
    by decide,
    ((EnvironmentSync_server_calls
      (LinkMarker.EnvironmentSync sampleMarker sampleScene sampleLink).2
      sampleScene sampleLink).2 (by decide)).1⟩

/-! ## Destruction -/

namespace LinkMarker

end LinkMarker

theorem LinkMarker.vertexAt_of_checked (trimesh : TriMesh) (i : Nat) (p : RaveVector)
    (h : LinkMarker.vertexAt_checked trimesh i = some p) : LinkMarker.vertexAt trimesh i = p := by
  unfold LinkMarker.vertexAt_checked at h
  unfold LinkMarker.vertexAt
  rw [List.getD_eq_getElem?_getD, h]
  rfl

/-- Where the checked conversion yields a marker, it is the marker of
`TriMeshToMarker`. -/
theorem LinkMarker.TriMeshToMarker_of_checked (trimesh : TriMesh) (marker result : Marker)
    (h : LinkMarker.TriMeshToMarker_checked trimesh marker = some result) :
    LinkMarker.TriMeshToMarker trimesh marker = result := by
  have hnone : ∀ (l : List Nat), l.foldl
      (fun (points : Option (List Point)) i =>
        match points, LinkMarker.vertexAt_checked trimesh (i + 0),
          LinkMarker.vertexAt_checked trimesh (i + 1),
          LinkMarker.vertexAt_checked trimesh (i + 2) with
        | some points, some p1, some p2, some p3 =>
          some (points ++ [toROSPoint p1, toROSPoint p2, toROSPoint p3])
        | _, _, _, _ => none) none = none := by
    intro l
    induction l with
    | nil => rfl
    | cons j l ihl => rw [List.foldl_cons]; exact ihl
  have key : ∀ (positions : List Nat) (acc pts : List Point),
      positions.foldl
        (fun (points : Option (List Point)) i =>
          match points, LinkMarker.vertexAt_checked trimesh (i + 0),
            LinkMarker.vertexAt_checked trimesh (i + 1),
            LinkMarker.vertexAt_checked trimesh (i + 2) with
          | some points, some p1, some p2, some p3 =>
            some (points ++ [toROSPoint p1, toROSPoint p2, toROSPoint p3])
          | _, _, _, _ => none) (some acc) = some pts →
      positions.foldl (fun points i =>
        points ++ [toROSPoint (LinkMarker.vertexAt trimesh (i + 0)),
          toROSPoint (LinkMarker.vertexAt trimesh (i + 1)),
          toROSPoint (LinkMarker.vertexAt trimesh (i + 2))]) acc = pts := by
    intro positions
    induction positions with
    | nil =>
      intro acc pts hfold
      simpa using hfold
    | cons i rest ih =>
      intro acc pts hfold
      rw [List.foldl_cons] at hfold ⊢
      cases h1 : LinkMarker.vertexAt_checked trimesh (i + 0) with
      | none =>
        rw [h1] at hfold
        simp only [hnone] at hfold
        exact Option.noConfusion hfold
      | some p1 =>
        cases h2 : LinkMarker.vertexAt_checked trimesh (i + 1) with
        | none =>
          rw [h1, h2] at hfold
          simp only [hnone] at hfold
          exact Option.noConfusion hfold
        | some p2 =>
          cases h3 : LinkMarker.vertexAt_checked trimesh (i + 2) with
          | none =>
            rw [h1, h2, h3] at hfold
            simp only [hnone] at hfold
            exact Option.noConfusion hfold
          | some p3 =>
            rw [h1, h2, h3] at hfold
            rw [LinkMarker.vertexAt_of_checked trimesh _ p1 h1,
              LinkMarker.vertexAt_of_checked trimesh _ p2 h2,
              LinkMarker.vertexAt_of_checked trimesh _ p3 h3]
            exact ih _ pts hfold
  unfold LinkMarker.TriMeshToMarker_checked at h
  unfold LinkMarker.TriMeshToMarker
  simp only [Option.map_eq_some'] at h
  obtain ⟨pts, hpts, hres⟩ := h
  rw [key _ [] pts hpts]
  exact hres

/-- C19 fails on the code.  For the one-triangle mesh `sampleTriangle` (three
vertices, indices `0, 1, 2`, all in range) the loop of `TriMeshToMarker` reads
the vertex positions 0,1,2, then 1,2,3, then 2,3,4: positions 3 and 4 lie past
the end of the vertex array, and the checked conversion yields nothing. -/
theorem TriMeshToMarker_reads_past_end :
    sampleTriangle.indices.length % 3 = 0 ∧
    (∀ index ∈ sampleTriangle.indices,
      0 ≤ index ∧ index.toNat < sampleTriangle.vertices.length) ∧
    LinkMarker.vertexAt_checked sampleTriangle (1 + 2) = none ∧
    LinkMarker.TriMeshToMarker_checked sampleTriangle
      (Marker.fresh (toROSPose sampleLink.GetTransform)) = none := by
  decide

/-! ## The synchronisation with its faults -/

namespace LinkMarker

/-- Where the checked per-geometry call has an outcome, it is the marker of
`CreateGeometry_geometry`. -/
theorem CreateGeometry_geometry_of_checked (this : LinkMarker) (env : Scene)
    (geometry : Geometry) (result : Option Marker)
    (h : CreateGeometry_geometry_checked this env geometry = some result) :
    CreateGeometry_geometry this env geometry = result := by
  unfold CreateGeometry_geometry_checked at h
  unfold CreateGeometry_geometry
  by_cases hst : starts_with geometry.GetRenderFilename "__norenderif__" = true
  · simp only [hst, if_true, ne_eq, not_true_eq_false, false_and, if_false] at h ⊢
    revert h
    cases geometry.GetType <;> exact fun h => Option.some.inj h
  · simp only [hst, Bool.false_eq_true, if_false] at h ⊢
    by_cases hc : geometry.GetRenderFilename ≠ "" ∧
        HasRVizSupport geometry.GetRenderFilename = true
    · rw [if_pos hc] at h ⊢
      cases hb : (this.override_color_.isNone && HasTexture geometry.GetRenderFilename)
      · simp only [hb, Bool.false_eq_true, if_false] at h ⊢
        exact Option.some.inj h
      · simp only [hb, if_true] at h ⊢
        exact Option.some.inj h
    · rw [if_neg hc] at h ⊢
      by_cases hp : geometry.GetRenderFilename ≠ ""
      · rw [if_pos hp] at h ⊢
        cases hload : env.ReadTrimeshURI geometry.GetRenderFilename with
        | none =>
          simp only [hload] at h ⊢
          exact Option.some.inj h
        | some trimesh =>
          simp only [hload] at h ⊢
          split at h
          · exact Option.noConfusion h
          · rename_i marker hm
            rw [TriMeshToMarker_of_checked trimesh _ marker hm]
            exact Option.some.inj h
      · rw [if_neg hp] at h ⊢
        revert h
        cases geometry.GetType <;> exact fun h => Option.some.inj h

theorem CreateGeometry.step_of_checked (env : Scene) (this : LinkMarker)
    (geometry : GeometryAddr) (result : LinkMarker)
    (h : CreateGeometry.step_checked env this geometry = some result) :
    CreateGeometry.step env this geometry = result := by
  unfold CreateGeometry.step_checked at h
  unfold CreateGeometry.step
  split at h
  · rename_i hv
    rw [if_pos hv]
    exact Option.some.inj h
  · rename_i hv
    rw [if_neg hv]
    split at h
    · exact Option.noConfusion h
    · rename_i new_marker hm
      rw [CreateGeometry_geometry_of_checked this env _ _ hm]
      exact Option.some.inj h
    · rename_i hm
      rw [CreateGeometry_geometry_of_checked this env _ _ hm]
      exact Option.some.inj h

theorem CreateGeometry.loop_of_checked (env : Scene) (geometries : List GeometryAddr)
    (this result : LinkMarker)
    (h : CreateGeometry.loop_checked env this geometries = some result) :
    geometries.foldl (CreateGeometry.step env) this = result := by
  induction geometries generalizing this with
  | nil =>
    simp only [CreateGeometry.loop_checked] at h
    exact Option.some.inj h
  | cons g rest ih =>
    simp only [CreateGeometry.loop_checked] at h
    rw [List.foldl_cons]
    split at h
    · exact Option.noConfusion h
    · rename_i next hs
      rw [CreateGeometry.step_of_checked env this g next hs]
      exact ih next h

/-- Where the checked synchronisation has an outcome, it is that of
`EnvironmentSync`. -/
theorem EnvironmentSync_of_checked (this : LinkMarker) (env : Scene) (link : Link)
    (result : Bool × LinkMarker) (h : EnvironmentSync_checked this env link = some result) :
    EnvironmentSync this env link = result := by
  unfold EnvironmentSync_checked at h
  unfold EnvironmentSync
  dsimp only at h ⊢
  split at h
  · rename_i hc
    rw [if_pos hc]
    split at h
    · exact Option.noConfusion h
    · rename_i rebuilt hr
      have hre : CreateGeometry this env link = rebuilt :=
        CreateGeometry.loop_of_checked env link.GetGeometries _ rebuilt hr
      rw [hre]
      exact Option.some.inj h
  · rename_i hc
    rw [if_neg hc]
    exact Option.some.inj h

/-- A synchronisation that reports no change has an outcome on every live link. -/
theorem EnvironmentSync_checked_unchanged (this : LinkMarker) (env : Scene) (link : Link)
    (h : (EnvironmentSync this env link).1 = false) :
    EnvironmentSync_checked this env link = some (EnvironmentSync this env link) := by
  have hs : EnvironmentSync.scan this env link.GetGeometries this.force_update_ = false := h
  unfold EnvironmentSync_checked EnvironmentSync
  dsimp only
  rw [hs]
  rfl

/-- On a live link the call, where it has an outcome, gives that of `EnvironmentSync`. -/
theorem EnvironmentSync_locked_of_live (this : LinkMarker) (env : Scene) (link : Link)
    (result : Bool × LinkMarker)
    (h : EnvironmentSync_locked this env (some link) = some result) :
    EnvironmentSync this env link = result :=
  EnvironmentSync_of_checked this env link result h

/-- On a live link whose rebuild reads past the end of a vertex array the call
has no outcome either. -/
theorem EnvironmentSync_locked_mesh_fault :
    EnvironmentSync_locked sampleMarker sampleMeshScene (some sampleLink) = none := by
  decide

end LinkMarker

/-- C16 fails on the code.  `EnvironmentSync` locks the link reference and goes
on to `link->GetGeometries()` without a test: for every overlay and scene the
call on an expired reference dereferences the empty pointer and has no
outcome, where the claim wants the overlay treated as stale and the call
completed.  On the sample overlay the call completes while the link is alive
and faults once the reference has expired. -/
theorem EnvironmentSync_expired_link_faults :
    (∀ (this : LinkMarker) (env : Scene),
      LinkMarker.EnvironmentSync_locked this env none = none) ∧
    LinkMarker.EnvironmentSync_locked sampleMarker sampleScene (some sampleLink)
      = some (LinkMarker.EnvironmentSync sampleMarker sampleScene sampleLink) ∧
    (LinkMarker.EnvironmentSync_locked sampleMarker sampleScene none).isSome = false := by
  exact ⟨fun _ _ => rfl, rfl, by decide⟩

end or_interactivemarker
